import Mathlib

/-!
Shallow embedding of `src/main.cpp` of the CoordinateSpace repository
(a LearnOpenGL "coordinate systems" example rendering a spinning textured
quad).  The program is a straight-line `main` with one frame loop, so it is
embedded as:

* an event-trace model (`mainTrace`): `main` seen as the sequence of
  observable library calls it issues (window creation, prints, buffer
  setup, per-frame uniform uploads and draw calls, shutdown releases),
  parametrised by the environment outcomes (window creation success, GLAD
  loader success, texture decode success) and the number of frame-loop
  iterations before the close signal;
* a real-valued matrix model of the per-frame transform computations
  (`frameUniforms`), with `glm::rotate`, `glm::translate`,
  `glm::perspective` and `glm::radians` translated entry-for-entry from
  GLM (column-major `M[col][row]` rendered here as `M row col`).
-/

namespace CoordinateSpace

/-- Which standard stream a message is printed to.  `main` prints with
`std::cout`; the stderr constructor exists so that statements about the
standard error stream can be expressed. -/
inductive StreamKind where
  | stdout
  | stderr
  deriving DecidableEq

/-- Observable events issued by `main` in `src/main.cpp`, in the order the
source issues them.  Pure computations (building the glm matrices) are not
events; they are modelled separately by `frameUniforms`. -/
inductive Ev where
  /-- call `glfwInit()` -/
  | glfwInitCall
  /-- call `glfwCreateWindow(...)` -/
  | createWindow
  /-- a message printed with `std::cout` / `std::cerr` -/
  | print (k : StreamKind) (msg : String)
  /-- call `glfwTerminate()` -/
  | glfwTerminateCall
  /-- call `gladLoadGLLoader(...)` -/
  | gladLoad
  /-- construction `Shader ourShader(...)` building the shader program -/
  | compileShader
  /-- buffer/vertex-array generation and the static vertex/index uploads -/
  | setupBuffers
  /-- call `glTexImage2D(...)` uploading the decoded texture pixels -/
  | texImage2D
  /-- call `glGenerateMipmap(...)` -/
  | genMipmap
  /-- call `processInput(window)` -/
  | processInputCall
  /-- calls `glClearColor` and `glClear` -/
  | clear
  /-- call `glBindTexture(GL_TEXTURE_2D, texture)` -/
  | bindTexture
  /-- call `glUniformMatrix4fv` for the named mat4 uniform -/
  | uniformMat4 (name : String)
  /-- call `glUniform1f` for the named float uniform -/
  | uniformFloat (name : String)
  /-- call `ourShader.use()` -/
  | useProgram
  /-- call `glBindVertexArray(VAO)` -/
  | bindVertexArray
  /-- call `glDrawElements(mode, count, GL_UNSIGNED_INT, 0)` -/
  | drawElements (mode : String) (count : Nat)
  /-- call `glfwSwapBuffers(window)` -/
  | swapBuffers
  /-- call `glfwPollEvents()` -/
  | pollEvents
  /-- call `glDeleteVertexArrays(1, &VAO)` -/
  | deleteVertexArrays
  /-- call `glDeleteBuffers(1, &...)` for the named buffer object -/
  | deleteBuffers (which : String)
  /-- call `glDeleteTextures` (never issued by this program) -/
  | deleteTextures
  /-- call `glDeleteProgram` (never issued by this program) -/
  | deleteProgram
  deriving DecidableEq

/-- Environment outcomes that decide the branches of `main`:
whether `glfwCreateWindow` returns a window, whether `gladLoadGLLoader`
succeeds, and whether `stbi_load("container.jpg", ...)` returns pixel
data. -/
structure Env where
  windowOk : Bool
  gladOk : Bool
  texOk : Bool
  deriving DecidableEq

/-- The body of one iteration of the render loop (`while
(!glfwWindowShouldClose(window))`), lines 440-501 of `src/main.cpp`, as the
sequence of events it issues. -/
def frameBody : List Ev :=
  [ .processInputCall,
    .clear,
    .bindTexture,
    .uniformMat4 "model",
    .uniformMat4 "view",
    .uniformMat4 "projection",
    .useProgram,
    .uniformMat4 "transform",
    .uniformFloat "time",
    .bindVertexArray,
    .drawElements "GL_TRIANGLES" 6,
    .swapBuffers,
    .pollEvents ]

/-- The initialization sequence of `main` once window creation and GLAD
loading have succeeded (lines 358-435): shader compilation, buffer and
vertex-array setup, then either the texture upload (`glTexImage2D` +
`glGenerateMipmap`) or the "Failed to load texture" warning, depending on
whether `stbi_load` returned data. -/
def setupEvents (texOk : Bool) : List Ev :=
  [.glfwInitCall, .createWindow, .gladLoad, .compileShader, .setupBuffers] ++
    (if texOk then [.texImage2D, .genMipmap]
     else [.print .stdout "Failed to load texture"])

/-- The shutdown sequence after the frame loop exits (lines 503-512). -/
def shutdownEvents : List Ev :=
  [.deleteVertexArrays, .deleteBuffers "VBO", .deleteBuffers "EBO",
   .glfwTerminateCall]

/-- The event trace and exit status of `main`, given the environment
outcomes and the number `n` of frame-loop iterations performed before
`glfwWindowShouldClose` becomes true.  Translated from `src/main.cpp`
lines 336-513. -/
def mainTrace (e : Env) (n : Nat) : List Ev × Int :=
  if e.windowOk = false then
    ([.glfwInitCall, .createWindow,
      .print .stdout "Failed to create GLFW window", .glfwTerminateCall], -1)
  else if e.gladOk = false then
    ([.glfwInitCall, .createWindow, .gladLoad,
      .print .stdout "Failed to initialize GLAD"], -1)
  else
    (setupEvents e.texOk ++ (List.replicate n frameBody).flatten ++
      shutdownEvents, 0)

/-- The index array of `src/main.cpp` lines 382-385: two triangles over the
four quad vertices. -/
def indices : List Nat := [0, 1, 3, 1, 2, 3]

/-- Number of vertices in the `vertices` array of lines 375-381: 32 floats
at 8 floats per vertex. -/
def numVertices : Nat := 32 / 8

/-- whether the event prints to the given stream. -/
def Ev.printsTo (ev : Ev) (k : StreamKind) : Bool :=
  match ev with
  | .print k2 _ => k2 = k
  | _ => false

/-! ## The per-frame transform computations

GLM matrices are column-major: `M[c][r]` is the entry in column `c`,
row `r`.  Here a GLM matrix is a `Matrix (Fin 4) (Fin 4) ℝ` with
`M r c = M[c][r]`, so the GLM `Result = m * Rotate` is ordinary matrix
multiplication and `clip = projection * view * model * local` reads the
same as in the source comments. -/

open Real in
/-- conversion `glm::radians`: degrees to radians. -/
noncomputable def radians (deg : ℝ) : ℝ := deg * (π / 180)

/-- translation of `glm::rotate(m, angle, v)` (matrix_transform.inl): builds the
Rodrigues rotation matrix for angle `angle` about the normalized axis
`v = (x, y, z)` and post-multiplies `m` by it. -/
noncomputable def rotate (m : Matrix (Fin 4) (Fin 4) ℝ) (angle x y z : ℝ) :
    Matrix (Fin 4) (Fin 4) ℝ :=
  let c := Real.cos angle
  let s := Real.sin angle
  let len := Real.sqrt (x ^ 2 + y ^ 2 + z ^ 2)
  let ax := x / len
  let ay := y / len
  let az := z / len
  let t0 := (1 - c) * ax
  let t1 := (1 - c) * ay
  let t2 := (1 - c) * az
  let R : Matrix (Fin 4) (Fin 4) ℝ := Matrix.of
    ![![c + t0 * ax,      t1 * ax - s * az,  t2 * ax + s * ay, 0],
      ![t0 * ay + s * az, c + t1 * ay,       t2 * ay - s * ax, 0],
      ![t0 * az - s * ay, t1 * az + s * ax,  c + t2 * az,      0],
      ![0,                0,                 0,                1]]
  m * R

/-- translation of `glm::translate(m, v)` (matrix_transform.inl): `Result = m` except
`Result[3] = m[0]*v.x + m[1]*v.y + m[2]*v.z + m[3]`. -/
def translate (m : Matrix (Fin 4) (Fin 4) ℝ) (x y z : ℝ) :
    Matrix (Fin 4) (Fin 4) ℝ :=
  Matrix.of fun i j =>
    if j = 3 then m i 0 * x + m i 1 * y + m i 2 * z + m i 3 else m i j

/-- translation of `glm::perspective(fovy, aspect, zNear, zFar)` (the right-handed,
[-1,1]-clip variant GLM defaults to): zero except
`M[0][0] = 1/(aspect*tanHalfFovy)`, `M[1][1] = 1/tanHalfFovy`,
`M[2][2] = -(far+near)/(far-near)`, `M[2][3] = -1`,
`M[3][2] = -(2*far*near)/(far-near)`. -/
noncomputable def perspective (fovy aspect zNear zFar : ℝ) :
    Matrix (Fin 4) (Fin 4) ℝ :=
  let th := Real.tan (fovy / 2)
  Matrix.of
    ![![1 / (aspect * th), 0,      0,                                0],
      ![0,                 1 / th, 0,                                0],
      ![0,                 0,      -(zFar + zNear) / (zFar - zNear), -(2 * zFar * zNear) / (zFar - zNear)],
      ![0,                 0,      -1,                               0]]

/-- The four matrices and the float uploaded to the shader uniforms in one
frame. -/
structure FrameUniforms where
  trans : Matrix (Fin 4) (Fin 4) ℝ
  model : Matrix (Fin 4) (Fin 4) ℝ
  view : Matrix (Fin 4) (Fin 4) ℝ
  projection : Matrix (Fin 4) (Fin 4) ℝ
  time : ℝ

/-- The per-frame uniform computation of `src/main.cpp` lines 454-491, as
a function of the elapsed time `t = glfwGetTime()` at that frame.  Note
the projection aspect is the literal `800.0f / 600.0f` of line 468; the
loop body reads no framebuffer dimensions. -/
noncomputable def frameUniforms (t : ℝ) : FrameUniforms where
  trans := rotate 1 (radians (t * 50)) 0 0 1
  model := rotate 1 (radians (-55)) 1 0 0
  view := translate 1 0 0 (-3)
  projection := perspective (radians 45) (800 / 600) 0.1 100
  time := t

/-- Modelled from the spec: the projection matrix the specification
prescribes, `Perspective(fovY=45°, aspect=width/height, near=0.1,
far=100.0)` built from the current framebuffer width and height.  The
loop body in the source takes no framebuffer dimensions, so this is the
spec-side definition a refinement claim compares against. -/
noncomputable def projectionSpec (width height : ℝ) :
    Matrix (Fin 4) (Fin 4) ℝ :=
  perspective (radians 45) (width / height) 0.1 100

/-- The standard rotation matrix about the Z axis, written directly (not
via the GLM Rodrigues formula). -/
noncomputable def rotZ (angle : ℝ) : Matrix (Fin 4) (Fin 4) ℝ :=
  Matrix.of
    ![![Real.cos angle, -Real.sin angle, 0, 0],
      ![Real.sin angle, Real.cos angle,  0, 0],
      ![0,              0,               1, 0],
      ![0,              0,               0, 1]]

/-- The standard rotation matrix about the X axis, written directly. -/
noncomputable def rotX (angle : ℝ) : Matrix (Fin 4) (Fin 4) ℝ :=
  Matrix.of
    ![![1, 0,              0,               0],
      ![0, Real.cos angle, -Real.sin angle, 0],
      ![0, Real.sin angle, Real.cos angle,  0],
      ![0, 0,              0,               1]]

/-- The standard translation matrix, written directly. -/
def translationMat (x y z : ℝ) : Matrix (Fin 4) (Fin 4) ℝ :=
  Matrix.of
    ![![1, 0, 0, x],
      ![0, 1, 0, y],
      ![0, 0, 1, z],
      ![0, 0, 0, 1]]

/-! ## Helper lemmas -/

/-- The GLM Rodrigues formula applied to the identity with the unit Z axis
is the standard Z rotation matrix. -/
theorem rotate_axisZ (θ : ℝ) : rotate 1 θ 0 0 1 = rotZ θ := by
  unfold rotate rotZ
  simp only [one_mul]
  norm_num [Real.sqrt_one]

/-- The GLM Rodrigues formula applied to the identity with the unit X axis
is the standard X rotation matrix. -/
theorem rotate_axisX (θ : ℝ) : rotate 1 θ 1 0 0 = rotX θ := by
  unfold rotate rotX
  simp only [one_mul]
  norm_num [Real.sqrt_one]

/-- The GLM `translate` on the identity is the standard translation
matrix. -/
theorem translate_one (x y z : ℝ) : translate 1 x y z = translationMat x y z := by
  unfold translate translationMat
  ext i j
  fin_cases i <;> fin_cases j <;> (simp [Matrix.one_apply]) <;> rfl

/-- A zero rotation about Z is the identity. -/
theorem rotZ_zero : rotZ 0 = 1 := by
  unfold rotZ
  ext i j
  fin_cases i <;> fin_cases j <;> (simp [Matrix.one_apply]) <;> rfl

/-- A rotation by π about Z negates the X and Y axes. -/
theorem rotZ_pi : rotZ Real.pi =
    Matrix.of ![![-1, 0, 0, 0], ![0, -1, 0, 0], ![0, 0, 1, 0], ![0, 0, 0, 1]] := by
  unfold rotZ
  norm_num [Real.cos_pi, Real.sin_pi]

/-- Half of the 45° field of view, in radians, is π/8, whose tangent is
positive. -/
theorem tanHalf_pos : 0 < Real.tan (radians 45 / 2) := by
  have h : radians 45 / 2 = Real.pi / 8 := by unfold radians; ring
  rw [h]
  exact Real.tan_pos_of_pos_of_lt_pi_div_two
    (by positivity) (by linarith [Real.pi_pos])

/-- Counting an event across `n` repetitions of a block. -/
theorem count_flatten_replicate (l : List Ev) (n : Nat) (ev : Ev) :
    ((List.replicate n l).flatten).count ev = n * l.count ev := by
  induction n with
  | zero => simp
  | succ k ih =>
    simp only [List.replicate_succ, List.flatten_cons, List.count_append, ih]
    ring

/-- The perspective matrix with the constant source aspect `800/600`
differs from the one a square `800 × 800` framebuffer would require: the
`[0][0]` entries disagree because `tan(22.5°) > 0`. -/
theorem perspective_aspect_ne :
    perspective (radians 45) (800 / 600) 0.1 100 ≠
      perspective (radians 45) (800 / 800) 0.1 100 := by
  intro h
  have h00 := congrFun (congrFun h 0) 0
  have ht := tanHalf_pos
  simp only [perspective, Matrix.of_apply, Matrix.cons_val_zero] at h00
  rw [div_eq_div_iff (by positivity) (by positivity)] at h00
  nlinarith [ht]

/-! ## Claim theorems -/

/-- C1 (counterexample): the projection matrix computed by the frame loop
is NOT the perspective matrix built from the current framebuffer
dimensions: with a resized `800 × 800` framebuffer the loop projection
(whose aspect term is the hard-coded `800.0f / 600.0f` of line 468)
differs from `Perspective(45°, 800/800, 0.1, 100)`. -/
theorem C1_counterexample :
    (frameUniforms 0).projection ≠ projectionSpec 800 800 := by
  intro h
  exact perspective_aspect_ne h

/-- C1 (amended): on every frame the projection matrix is rebuilt as a
perspective projection with fovY = 45°, near = 0.1, far = 100.0, but its
aspect term is the compile-time constant `800/600` (the initial window
dimensions), not the current framebuffer width over height; it is
identical on all frames, and in particular differs from the specified
`Perspective(45°, width/height, 0.1, 100)` whenever the framebuffer is
resized to an aspect other than 4:3 (e.g. 800 × 800). -/
theorem C1_amended_constant_aspect (t u : ℝ) :
    (frameUniforms t).projection = projectionSpec 800 600 ∧
    (frameUniforms t).projection = (frameUniforms u).projection ∧
    (frameUniforms t).projection ≠ projectionSpec 800 800 :=
  ⟨rfl, rfl, fun h => perspective_aspect_ne h⟩

/-- C4: for every non-negative elapsed time `t`, the spin transform
`trans` equals the standard rotation by `t × 50` degrees about the axis
(0,0,1); in particular it is the identity at `t = 0`, and at `t = 3.6`
seconds it is the 180° rotation about Z (exactly, in the real-valued
model). -/
theorem C4_spin_rotation (t : ℝ) (h : 0 ≤ t) :
    (frameUniforms t).trans = rotZ (radians (t * 50)) ∧
    (frameUniforms 0).trans = 1 ∧
    (frameUniforms 3.6).trans =
      Matrix.of ![![-1, 0, 0, 0], ![0, -1, 0, 0], ![0, 0, 1, 0], ![0, 0, 0, 1]] := by
  refine ⟨rotate_axisZ _, ?_, ?_⟩
  · show rotate 1 (radians (0 * 50)) 0 0 1 = 1
    rw [rotate_axisZ]
    have h0 : radians (0 * 50) = 0 := by unfold radians; ring
    rw [h0, rotZ_zero]
  · show rotate 1 (radians (3.6 * 50)) 0 0 1 = _
    rw [rotate_axisZ]
    have hpi : radians (3.6 * 50) = Real.pi := by
      unfold radians
      norm_num
      ring
    rw [hpi, rotZ_pi]

/-- Witness for C4 at the concrete time `t = 0`. -/
theorem C4_spin_rotation_witness :
    (0 : ℝ) ≤ 0 ∧
    ((frameUniforms 0).trans = rotZ (radians (0 * 50)) ∧
     (frameUniforms 0).trans = 1 ∧
     (frameUniforms 3.6).trans =
       Matrix.of ![![-1, 0, 0, 0], ![0, -1, 0, 0], ![0, 0, 1, 0], ![0, 0, 0, 1]]) :=
  ⟨le_refl 0, C4_spin_rotation 0 (le_refl 0)⟩

/-- C5: on every frame, regardless of the elapsed time, the model matrix
is the identity rotated by −55° about (1,0,0) (the standard X-axis
rotation) and the view matrix is the identity translated by (0,0,−3); both
are the same on all frames. -/
theorem C5_model_view_constant (t u : ℝ) :
    (frameUniforms t).model = rotX (radians (-55)) ∧
    (frameUniforms t).view = translationMat 0 0 (-3) ∧
    (frameUniforms t).model = (frameUniforms u).model ∧
    (frameUniforms t).view = (frameUniforms u).view :=
  ⟨rotate_axisX _, translate_one 0 0 (-3), rfl, rfl⟩

/-- On a successful initialization, the number of occurrences of an event
in the whole trace is its count in the setup, plus `n` times its count in
the frame body, plus its count in the shutdown sequence. -/
theorem mainTrace_ok_count (tx : Bool) (n : Nat) (ev : Ev) :
    ((mainTrace ⟨true, true, tx⟩ n).1).count ev =
      (setupEvents tx).count ev + n * frameBody.count ev +
        shutdownEvents.count ev := by
  have htr : (mainTrace ⟨true, true, tx⟩ n).1 =
      setupEvents tx ++ (List.replicate n frameBody).flatten ++
        shutdownEvents := rfl
  rw [htr, List.count_append, List.count_append, count_flatten_replicate]

/-- C2 (counterexample): in a normal run (all initialization succeeds, one
frame, then close), the trace contains no texture release and no shader
program release: `glDeleteTextures` and `glDeleteProgram` are never
called, so the texture object and the shader program are NOT released by
an explicit release call at shutdown. -/
theorem C2_counterexample :
    Ev.deleteTextures ∉ (mainTrace ⟨true, true, true⟩ 1).1 ∧
    Ev.deleteProgram ∉ (mainTrace ⟨true, true, true⟩ 1).1 := by
  decide

/-- C2 (amended): at shutdown, the vertex array object, the vertex
buffer, and the element buffer are each released by exactly one explicit
release call, for any number of frames; the texture object and the shader
program receive no explicit release call (they are reclaimed only by
context/process teardown). -/
theorem C2_amended_shutdown_releases (tx : Bool) (n : Nat) :
    (mainTrace ⟨true, true, tx⟩ n).1.count Ev.deleteVertexArrays = 1 ∧
    (mainTrace ⟨true, true, tx⟩ n).1.count (Ev.deleteBuffers "VBO") = 1 ∧
    (mainTrace ⟨true, true, tx⟩ n).1.count (Ev.deleteBuffers "EBO") = 1 ∧
    (mainTrace ⟨true, true, tx⟩ n).1.count Ev.deleteTextures = 0 ∧
    (mainTrace ⟨true, true, tx⟩ n).1.count Ev.deleteProgram = 0 := by
  refine ⟨?_, ?_, ?_, ?_, ?_⟩ <;>
    rw [mainTrace_ok_count] <;>
    cases tx <;>
    simp [setupEvents, shutdownEvents, frameBody, List.count_cons]

/-- C3 (counterexample): when window creation fails, the process exits
with status −1 — an initialization failure did occur — yet the trace
contains no write to the standard error stream at all; the failure
message goes to standard output (`std::cout`). -/
theorem C3_counterexample :
    (mainTrace ⟨false, true, true⟩ 0).1 =
      [.glfwInitCall, .createWindow,
       .print .stdout "Failed to create GLFW window", .glfwTerminateCall] ∧
    (mainTrace ⟨false, true, true⟩ 0).2 = -1 ∧
    ((mainTrace ⟨false, true, true⟩ 0).1.filter
      (fun ev => ev.printsTo .stderr)) = [] := by
  decide

/-- C3 (amended): whenever an initialization failure occurs (window
creation fails, or GLAD function-pointer loading fails), a failure
message is written to the standard OUTPUT stream, and the process exits
with status −1 without retrying (window creation is attempted exactly
once, and the GLAD loader at most once). -/
theorem C3_amended_failure_reporting (g tx tx2 : Bool) (n m : Nat) :
    (Ev.print .stdout "Failed to create GLFW window" ∈
        (mainTrace ⟨false, g, tx⟩ n).1 ∧
      (mainTrace ⟨false, g, tx⟩ n).2 = -1 ∧
      (mainTrace ⟨false, g, tx⟩ n).1.count Ev.createWindow = 1 ∧
      (mainTrace ⟨false, g, tx⟩ n).1.count Ev.gladLoad = 0) ∧
    (Ev.print .stdout "Failed to initialize GLAD" ∈
        (mainTrace ⟨true, false, tx2⟩ m).1 ∧
      (mainTrace ⟨true, false, tx2⟩ m).2 = -1 ∧
      (mainTrace ⟨true, false, tx2⟩ m).1.count Ev.createWindow = 1 ∧
      (mainTrace ⟨true, false, tx2⟩ m).1.count Ev.gladLoad = 1) := by
  have h1 : mainTrace ⟨false, g, tx⟩ n =
      ([.glfwInitCall, .createWindow,
        .print .stdout "Failed to create GLFW window", .glfwTerminateCall],
       -1) := rfl
  have h2 : mainTrace ⟨true, false, tx2⟩ m =
      ([.glfwInitCall, .createWindow, .gladLoad,
        .print .stdout "Failed to initialize GLAD"], -1) := rfl
  rw [h1, h2]
  decide

/-- C6: the exit status of `main` is 0 exactly when both window creation
and GLAD loading succeed (normal termination via the close signal), and
−1 otherwise; no other exit code is produced for any environment and any
number of frames. -/
theorem C6_exit_codes (e : Env) (n : Nat) :
    (mainTrace e n).2 = if e.windowOk && e.gladOk then 0 else -1 := by
  obtain ⟨w, g, tx⟩ := e
  cases w <;> cases g <;> simp [mainTrace]

/-- C7: when the texture file fails to load, a "Failed to load texture"
warning is printed, no decoded texture data is uploaded (`glTexImage2D`
never runs), the process still terminates normally with status 0, and the
indexed draw call executes exactly once per frame-loop iteration. -/
theorem C7_texture_failure_nonfatal (n : Nat) :
    Ev.print .stdout "Failed to load texture" ∈
        (mainTrace ⟨true, true, false⟩ n).1 ∧
    Ev.texImage2D ∉ (mainTrace ⟨true, true, false⟩ n).1 ∧
    (mainTrace ⟨true, true, false⟩ n).2 = 0 ∧
    (mainTrace ⟨true, true, false⟩ n).1.count
      (Ev.drawElements "GL_TRIANGLES" 6) = n := by
  have htr : (mainTrace ⟨true, true, false⟩ n).1 =
      setupEvents false ++ (List.replicate n frameBody).flatten ++
        shutdownEvents := rfl
  refine ⟨?_, ?_, rfl, ?_⟩
  · rw [htr]
    simp [setupEvents]
  · rw [htr]
    simp only [List.mem_append, List.mem_flatten, List.mem_replicate]
    rintro ((hs | ⟨l, ⟨-, rfl⟩, hl⟩) | hd)
    · exact absurd hs (by decide)
    · exact absurd hl (by decide)
    · exact absurd hd (by decide)
  · rw [mainTrace_ok_count]
    simp [setupEvents, shutdownEvents, frameBody, List.count_cons]

/-- C8: the index buffer holds exactly 6 indices forming two triangles
over the 4 quad vertices, every index is a valid vertex slot (< 4), and
the per-frame draw call issues exactly `indices.length` indices as
`GL_TRIANGLES` once per frame. -/
theorem C8_index_buffer :
    indices.length = 6 ∧
    indices.all (fun i => decide (i < numVertices)) = true ∧
    indices = [0, 1, 3] ++ [1, 2, 3] ∧
    frameBody.count (Ev.drawElements "GL_TRIANGLES" indices.length) = 1 := by
  decide

/-- C9: within every frame-loop iteration, the `model`, `view` and
`projection` matrix uploads are issued strictly before `use()` activates
the shader program, while the `transform` matrix upload and the `time`
upload come strictly after it (each of these events occurs exactly once
per iteration); moreover no `use()` happens during initialization, so the
first-iteration `model`/`view`/`projection` uploads precede the first
`use()` of the run. -/
theorem C9_upload_order :
    frameBody.count Ev.useProgram = 1 ∧
    frameBody.count (Ev.uniformMat4 "model") = 1 ∧
    frameBody.count (Ev.uniformMat4 "view") = 1 ∧
    frameBody.count (Ev.uniformMat4 "projection") = 1 ∧
    frameBody.count (Ev.uniformMat4 "transform") = 1 ∧
    frameBody.count (Ev.uniformFloat "time") = 1 ∧
    frameBody.indexOf (Ev.uniformMat4 "model") < frameBody.indexOf Ev.useProgram ∧
    frameBody.indexOf (Ev.uniformMat4 "view") < frameBody.indexOf Ev.useProgram ∧
    frameBody.indexOf (Ev.uniformMat4 "projection") < frameBody.indexOf Ev.useProgram ∧
    frameBody.indexOf Ev.useProgram < frameBody.indexOf (Ev.uniformMat4 "transform") ∧
    frameBody.indexOf Ev.useProgram < frameBody.indexOf (Ev.uniformFloat "time") ∧
    Ev.useProgram ∉ setupEvents true ∧
    Ev.useProgram ∉ setupEvents false := by
  decide

/-- C10: the two initialization-failure paths clean up differently — on
window-creation failure, `glfwTerminate()` is called (exactly once)
before the process exits with −1, whereas on GLAD loading failure the
process exits with −1 without `glfwTerminate()` ever appearing in the
trace. -/
theorem C10_terminate_asymmetry (g tx tx2 : Bool) (n m : Nat) :
    ((mainTrace ⟨false, g, tx⟩ n).1.count Ev.glfwTerminateCall = 1 ∧
      (mainTrace ⟨false, g, tx⟩ n).2 = -1) ∧
    (Ev.glfwTerminateCall ∉ (mainTrace ⟨true, false, tx2⟩ m).1 ∧
      (mainTrace ⟨true, false, tx2⟩ m).2 = -1) := by
  have h1 : mainTrace ⟨false, g, tx⟩ n =
      ([.glfwInitCall, .createWindow,
        .print .stdout "Failed to create GLFW window", .glfwTerminateCall],
       -1) := rfl
  have h2 : mainTrace ⟨true, false, tx2⟩ m =
      ([.glfwInitCall, .createWindow, .gladLoad,
        .print .stdout "Failed to initialize GLAD"], -1) := rfl
  rw [h1, h2]
  decide

end CoordinateSpace
